import Mathlib

/-!
Shallow embedding of `src/python/to_webdav.py`, a three-stage local backup
pipeline: archive creation (`create_unencrypted_zip`), encryption via an
external openssl process (`encrypt_with_openssl`), per-destination WebDAV
upload (`upload_to_webdav`), and a final best-effort cleanup, all sequenced
by `main`.

POSIX path strings are modelled at the level the script uses them:
splitting on the separator character and the trailing-separator distinction
that `os.path.dirname` is sensitive to.
-/

/-- Components of a POSIX path string: maximal runs of non-separator
characters, i.e. splitting on the separator and dropping empty pieces
(models how `posixpath` normalisation and `relpath` treat a path). -/
def pathCompsAux : List Char → List Char → List String
  | [], acc => if acc.isEmpty then [] else [String.mk acc.reverse]
  | c :: cs, acc =>
    if c = '/' then
      if acc.isEmpty then pathCompsAux cs []
      else String.mk acc.reverse :: pathCompsAux cs []
    else pathCompsAux cs (c :: acc)

/-- Component list of a path string. -/
def pathComponents (p : String) : List String :=
  pathCompsAux p.data []

/-- Whether the path string ends with the POSIX separator. -/
def endsWithSep (p : String) : Bool :=
  p.data.getLast? == some '/'

/-- Component list of `os.path.dirname p`: everything before the final
separator, so a path with a trailing separator is its own dirname and
otherwise the last component is dropped. -/
def dirnameComponents (p : String) : List String :=
  if endsWithSep p then pathComponents p else (pathComponents p).dropLast

/-- Model of `os.path.basename p` for a path without trailing separator:
the last component. -/
def basenameOf (p : String) : String :=
  (pathComponents p).getLastD ""

/-- Length of the longest common component prefix of two paths, as
`posixpath.relpath` computes it. -/
def commonPrefixLen : List String → List String → Nat
  | a :: as, b :: bs => if a = b then commonPrefixLen as bs + 1 else 0
  | _, _ => 0

/-- Model of `os.path.relpath path start` on normalised absolute component
lists: strip the common prefix, ascend with `..` for what remains of
`start`, and yield `.` for an empty result. -/
def relpathComponents (path start : List String) : List String :=
  let i := commonPrefixLen path start
  let rel := List.replicate (start.length - i) ".." ++ path.drop i
  if rel.isEmpty then ["."] else rel

/-- The filesystem visible to the archiver: regular files and directories,
each named by the component list of its normalised absolute path. -/
structure FS where
  files : List (List String)
  dirs : List (List String)
deriving DecidableEq

/-- Model of `os.path.isfile`: a path with a trailing separator never
denotes a regular file; otherwise membership among the regular files. -/
def isfile (fs : FS) (p : String) : Bool :=
  !endsWithSep p && fs.files.contains (pathComponents p)

/-- Model of `os.path.isdir`: membership among the directories. -/
def isdir (fs : FS) (p : String) : Bool :=
  fs.dirs.contains (pathComponents p)

/-- The regular files `os.walk item` reaches: files strictly below the
directory `item`. -/
def filesUnder (fs : FS) (p : String) : List (List String) :=
  fs.files.filter
    (fun f => (pathComponents p).isPrefixOf f && decide ((pathComponents p).length < f.length))

/-- Archive entries contributed by one source item, from the loop body of
`create_unencrypted_zip`: a regular file is stored under its base name; a
directory contributes every file below it, stored under
`relpath(file, dirname(item))`; anything else contributes nothing. -/
def entriesForItem (fs : FS) (item : String) : List (List String) :=
  if isfile fs item then [[basenameOf item]]
  else if isdir fs item then
    (filesUnder fs item).map (fun f => relpathComponents f (dirnameComponents item))
  else []

/-- Stored paths of the archive produced by `create_unencrypted_zip` over a
list of source items (each stored path as its component list). -/
def create_unencrypted_zip_entries (fs : FS) (items : List String) : List (List String) :=
  items.flatMap (entriesForItem fs)

/-- Result of `create_unencrypted_zip` in this fault-free filesystem model:
the returned success flag together with the stored entries (I/O faults are
injected at the orchestrator level instead). -/
def create_unencrypted_zip (fs : FS) (items : List String) : Bool × List (List String) :=
  (true, create_unencrypted_zip_entries fs items)

/-- Outcome of invoking the external openssl process via `subprocess.run`
with `check=True`: the binary may be missing, the cipher may run and report
failure with an exit code and diagnostic output, or it may succeed. -/
inductive CipherOutcome where
  | toolMissing : CipherOutcome
  | cipherError : Int → String → CipherOutcome
  | succeeded : CipherOutcome
deriving DecidableEq

/-- Python exceptions that `subprocess.run(check=True)` raises in the
script's failure modes. -/
inductive PyExc where
  | fileNotFoundError : PyExc
  | calledProcessError : Int → String → PyExc
deriving DecidableEq

/-- Error report of the encryption step, as distinguished and surfaced by
the two handlers of `encrypt_with_openssl`. -/
inductive EncryptError where
  | toolUnavailable : EncryptError
  | cipherFailed : Int → String → EncryptError
deriving DecidableEq

/-- Model of `subprocess.run(command, check=True, ...)` for the openssl
invocation: raises `FileNotFoundError` when the binary is missing, raises
`CalledProcessError` carrying the exit code and stderr when the cipher
reports failure, and returns normally on success. -/
def subprocess_run_openssl : CipherOutcome → Except PyExc Unit
  | .toolMissing => .error .fileNotFoundError
  | .cipherError code msg => .error (.calledProcessError code msg)
  | .succeeded => .ok ()

/-- Model of `encrypt_with_openssl`: runs the cipher process, catching
`FileNotFoundError` and `CalledProcessError`, and returns `True` on success
or `False` (with the error it reported) on either failure; an uncaught
exception would appear as `.error`. -/
def encrypt_with_openssl (o : CipherOutcome) : Except PyExc (Bool × Option EncryptError) :=
  match subprocess_run_openssl o with
  | .ok _ => .ok (true, none)
  | .error .fileNotFoundError => .ok (false, some .toolUnavailable)
  | .error (.calledProcessError code msg) => .ok (false, some (.cipherFailed code msg))

/-- One configured WebDAV destination together with the behaviour of the
remote during this run: the directories existing at `check` time, whether
contacting the server errors (connection or auth failure), whether another
actor creates the target directory between `check` and `mkdir`, and whether
the transfer itself errors. -/
structure ServerWorld where
  dirs : List String
  checkFails : Bool
  raceCreate : Bool
  uploadFails : Bool
deriving DecidableEq

/-- Outcome of `upload_to_webdav` for one destination: either the file was
uploaded or an exception was caught and logged inside the function. -/
inductive UploadResult where
  | uploaded : UploadResult
  | errorCaught : UploadResult
deriving DecidableEq

/-- Model of `client.check`: whether the remote directory exists. -/
def check_dir (dirs : List String) (p : String) : Bool :=
  dirs.contains p

/-- Model of `client.mkdir`: creating a directory that already exists
errors (WebDAV MKCOL on an existing collection); otherwise the directory is
added. -/
def client_mkdir (dirs : List String) (p : String) : Except Unit (List String) :=
  if dirs.contains p then .error () else .ok (p :: dirs)

/-- The ensure-directory step of `upload_to_webdav` in isolation:
`if not client.check(dir): client.mkdir(dir)` run sequentially against the
remote directory state. -/
def ensureDirectory (dirs : List String) (p : String) : Except Unit (List String) :=
  if check_dir dirs p then .ok dirs else client_mkdir dirs p

/-- Model of `upload_to_webdav`: check the remote directory, create it when
absent, then transfer the file; every exception from any of these steps is
caught by the surrounding handler, so the function always returns. -/
def upload_to_webdav (sw : ServerWorld) (remoteDir : String) : UploadResult :=
  if sw.checkFails then .errorCaught
  else if check_dir sw.dirs remoteDir then
    if sw.uploadFails then .errorCaught else .uploaded
  else
    match client_mkdir (if sw.raceCreate then remoteDir :: sw.dirs else sw.dirs) remoteDir with
    | .error _ => .errorCaught
    | .ok _ => if sw.uploadFails then .errorCaught else .uploaded

/-- Environment of one run of `main`: whether opening the zip container for
writing succeeds, whether some read or write while filling it errors, the
outcome of the openssl invocation, whether each `os.remove` raises
`OSError`, the configured destinations, and the date-derived remote
directory name. -/
structure World where
  openOk : Bool
  writeFails : Bool
  encryptOutcome : CipherOutcome
  removeZipFails : Bool
  removeEncFails : Bool
  servers : List ServerWorld
  remoteDir : String

/-- Whether `create_unencrypted_zip` returns `True` for this run: the
container was opened and no read or write inside the `with` block raised. -/
def create_zip_ok (w : World) : Bool :=
  w.openOk && !w.writeFails

/-- Whether `encrypt_with_openssl` returns `True` for this run. -/
def encryptOk (w : World) : Bool :=
  match encrypt_with_openssl w.encryptOutcome with
  | .ok r => r.1
  | .error _ => false

/-- Observable outcome of one run of `main`: the process exit code, the
result of each attempted `upload_to_webdav` call in configured order,
whether the final cleanup block (step 4) was entered, whether it logged a
caught `OSError`, and which local temporary files still exist when the
process ends. -/
structure RunResult where
  exitCode : Nat
  uploadOutcomes : List UploadResult
  cleanupReached : Bool
  cleanupErrorLogged : Bool
  zipExistsAtEnd : Bool
  encExistsAtEnd : Bool
deriving DecidableEq

/-- The final cleanup block of `main` (step 4): one `try` whose body
removes the zip if present and then the encrypted file if present, with
`OSError` caught and logged; an error while removing the zip leaves the
rest of the block unexecuted. Arguments are whether each file exists at
entry; the result is whether each still exists afterwards, and whether an
error was logged. -/
def cleanup_block (w : World) (zipE encE : Bool) : Bool × Bool × Bool :=
  if zipE then
    if w.removeZipFails then (true, encE, true)
    else if encE then
      if w.removeEncFails then (false, true, true) else (false, false, false)
    else (false, false, false)
  else if encE then
    if w.removeEncFails then (false, true, true) else (false, false, false)
  else (false, false, false)

/-- Model of `main`. Archiving failure returns early with nothing removed
(the opened container file remains, non-empty, since closing it writes the
central directory). Encryption failure removes the zip with a bare
`os.remove` outside any handler, so an `OSError` there escapes and the
process exits non-zero. Otherwise every destination is attempted in order
and the cleanup block runs; `main` then falls off the end, so the process
exits 0 on every path without an uncaught exception. (Named `main_run`
because Lean reserves `main` for executables.) -/
def main_run (w : World) : RunResult :=
  if create_zip_ok w = false then
    ⟨0, [], false, false, w.openOk, false⟩
  else
    match encrypt_with_openssl w.encryptOutcome with
    | .error _ => ⟨1, [], false, false, true, false⟩
    | .ok (false, _) =>
      if w.removeZipFails then ⟨1, [], false, false, true, false⟩
      else ⟨0, [], false, false, false, false⟩
    | .ok (true, _) =>
      let outs := w.servers.map (fun sw => upload_to_webdav sw w.remoteDir)
      let c := cleanup_block w true true
      ⟨0, outs, true, c.2.2, c.1, c.2.1⟩

/-- The spec's notion of the path stored for a directory's contents: the
component list of the *parent* of the source directory, i.e. the item's
components with the directory's own name dropped. Stated separately from
`dirnameComponents` (which follows the source) so the two can be compared. -/
def parentDirComponents (p : String) : List String :=
  (pathComponents p).dropLast

/-- A run in which opening the zip container fails, so archiving fails. -/
def archFailWorld : World :=
  ⟨false, false, .succeeded, false, false, [], "2026-10"⟩

/-- A run in which archiving fails after the container was opened: a
partially-written zip remains. -/
def partialZipWorld : World :=
  ⟨true, true, .succeeded, false, false, [], "2026-10"⟩

/-- A run in which the openssl binary is missing, with one configured
destination. -/
def encFailWorld : World :=
  ⟨true, false, .toolMissing, false, false, [⟨[], false, false, false⟩], "2026-10"⟩

/-- A fully successful run except that removing the zip during final
cleanup raises `OSError`. -/
def zipRemoveFailWorld : World :=
  ⟨true, false, .succeeded, true, false, [], "2026-10"⟩

/-- A run with two destinations: contacting the first errors (simulated
connection failure) and the second succeeds. -/
def twoServerWorld : World :=
  ⟨true, false, .succeeded, false, false,
    [⟨[], true, false, false⟩, ⟨["2026-10"], false, false, false⟩], "2026-10"⟩

/-- A run used to exercise the early-exit path with archiving failed. -/
def archFailWorld2 : World :=
  ⟨false, false, .toolMissing, false, false, [⟨[], false, false, false⟩], "2026-10"⟩

/-- A fully successful run with no destinations configured. -/
def quietWorld : World :=
  ⟨true, false, .succeeded, false, false, [], "2026-10"⟩

theorem commonPrefixLen_append (s t : List String) : commonPrefixLen (s ++ t) s = s.length := by
  induction s with
  | nil => cases t <;> rfl
  | cons b bs ih => simp [commonPrefixLen, ih]

theorem commonPrefixLen_of_pref (s f : List String) (h : s <+: f) :
    commonPrefixLen f s = s.length := by
  obtain ⟨t, rfl⟩ := h
  exact commonPrefixLen_append s t

theorem relpath_eq_drop (f s : List String) (h : s <+: f) (hlt : s.length < f.length) :
    relpathComponents f s = f.drop s.length := by
  unfold relpathComponents
  rw [commonPrefixLen_of_pref s f h]
  simp only [Nat.sub_self, List.replicate_zero, List.nil_append]
  have hne : (f.drop s.length).isEmpty ≠ true := by
    intro hc
    rw [List.isEmpty_iff] at hc
    have := List.drop_eq_nil_iff.mp hc
    omega
  simp [hne]

theorem entriesForItem_dir (fs : FS) (item : String)
    (hf : isfile fs item = false) (hd : isdir fs item = true) :
    entriesForItem fs item =
      (filesUnder fs item).map (fun f => f.drop (dirnameComponents item).length) := by
  unfold entriesForItem
  rw [hf, hd]
  simp only [Bool.false_eq_true, if_false, if_true]
  apply List.map_congr_left
  intro f hfm
  obtain ⟨hmem, hcond⟩ := List.mem_filter.mp hfm
  rw [Bool.and_eq_true] at hcond
  obtain ⟨h1, h2⟩ := hcond
  have hpref : pathComponents item <+: f := List.isPrefixOf_iff_prefix.mp h1
  have hlen : (pathComponents item).length < f.length := of_decide_eq_true h2
  have hd2 : dirnameComponents item <+: pathComponents item := by
    unfold dirnameComponents
    by_cases hsep : endsWithSep item = true
    · simp [hsep]
    · simp only [hsep, if_false, Bool.false_eq_true]
      exact List.dropLast_prefix _
  exact relpath_eq_drop f _ (hd2.trans hpref) (lt_of_le_of_lt hd2.length_le hlen)

theorem dirnameComponents_of_sep (p : String) (h : endsWithSep p = true) :
    dirnameComponents p = pathComponents p := by
  simp [dirnameComponents, h]

theorem entriesForItem_eq_cases (fs : FS) (item : String) :
    entriesForItem fs item =
      if isfile fs item then [[basenameOf item]]
      else if isdir fs item then
        if endsWithSep item then
          (filesUnder fs item).map (fun f => f.drop (pathComponents item).length)
        else
          (filesUnder fs item).map (fun f => f.drop ((pathComponents item).length - 1))
      else [] := by
  cases hf : isfile fs item with
  | true => simp [entriesForItem, hf]
  | false =>
    cases hd : isdir fs item with
    | false => simp [entriesForItem, hf, hd]
    | true =>
      rw [entriesForItem_dir fs item hf hd]
      simp only [hf, hd, Bool.false_eq_true, if_false, if_true]
      cases hsep : endsWithSep item with
      | true =>
        rw [if_pos rfl, dirnameComponents_of_sep item hsep]
      | false =>
        simp only [Bool.false_eq_true, if_false]
        unfold dirnameComponents
        rw [hsep]
        simp [List.length_dropLast]

theorem encrypt_never_raises (o : CipherOutcome) :
    ∃ r, encrypt_with_openssl o = .ok r := by
  cases o <;> simp [encrypt_with_openssl, subprocess_run_openssl]

theorem main_run_archfail (w : World) (hA : create_zip_ok w = false) :
    main_run w = ⟨0, [], false, false, w.openOk, false⟩ := by
  unfold main_run
  rw [if_pos hA]

theorem main_run_encfail (w : World) (hA : create_zip_ok w = true) (hE : encryptOk w = false) :
    main_run w =
      if w.removeZipFails then ⟨1, [], false, false, true, false⟩
      else ⟨0, [], false, false, false, false⟩ := by
  obtain ⟨⟨b, err⟩, hok⟩ := encrypt_never_raises w.encryptOutcome
  have hb : b = false := by
    have hx : encryptOk w = b := by unfold encryptOk; rw [hok]
    rw [hE] at hx
    exact hx.symm
  subst hb
  unfold main_run
  rw [hok, hA]
  simp

theorem main_run_success (w : World) (hA : create_zip_ok w = true) (hE : encryptOk w = true) :
    main_run w =
      ⟨0, w.servers.map (fun sw => upload_to_webdav sw w.remoteDir), true,
        (cleanup_block w true true).2.2, (cleanup_block w true true).1,
        (cleanup_block w true true).2.1⟩ := by
  obtain ⟨⟨b, err⟩, hok⟩ := encrypt_never_raises w.encryptOutcome
  have hb : b = true := by
    have hx : encryptOk w = b := by unfold encryptOk; rw [hok]
    rw [hE] at hx
    exact hx.symm
  subst hb
  unfold main_run
  rw [hok, hA]
  simp

/-- Claim C1, counterexample: in a run where archiving fails (the container
cannot be opened), `main` just returns, so the process exits with code 0 —
not the non-zero indication the claim requires for every archive- or
encrypt-stage failure. -/
theorem c1_counterexample :
    create_zip_ok archFailWorld = false ∧ (main_run archFailWorld).exitCode = 0 := by
  decide

/-- Claim C1, amended: when archiving fails, or when encryption fails and
the subsequent removal of the zip file succeeds, the process exits with
code 0 — stage failure is signalled only by early termination, never by a
non-zero exit. (The sole non-zero exit is the uncaught `OSError` when
removing the zip after an encryption failure.) -/
theorem c1_exit_zero_on_stage_failure (w : World)
    (h : create_zip_ok w = false ∨ (encryptOk w = false ∧ w.removeZipFails = false)) :
    (main_run w).exitCode = 0 := by
  rcases h with h | ⟨he, hr⟩
  · rw [main_run_archfail w h]
  · by_cases hA : create_zip_ok w = true
    · rw [main_run_encfail w hA he, if_neg]
      simp [hr]
    · have hA2 : create_zip_ok w = false := by
        cases hx : create_zip_ok w
        · rfl
        · exact absurd hx hA
      rw [main_run_archfail w hA2]

/-- Witness for the amended claim C1 at a concrete failing run. -/
theorem c1_exit_zero_on_stage_failure_witness :
    (main_run archFailWorld2).exitCode = 0 :=
  c1_exit_zero_on_stage_failure archFailWorld2 (Or.inl (by decide))

/-- Claim C2: when encryption fails, no destination is ever contacted (the
upload loop is not reached) and the orchestrator removes the zip file
before returning — the zip survives exactly when the removal call itself
raises — and no encrypted file exists. -/
theorem c2_encrypt_failure_cleanup (w : World)
    (hA : create_zip_ok w = true) (hE : encryptOk w = false) :
    (main_run w).uploadOutcomes = [] ∧
    (main_run w).zipExistsAtEnd = w.removeZipFails ∧
    (main_run w).encExistsAtEnd = false := by
  rw [main_run_encfail w hA hE]
  cases hr : w.removeZipFails <;> simp

/-- Witness for claim C2: the openssl binary is missing while one
destination is configured; nothing is uploaded and the zip is removed. -/
theorem c2_encrypt_failure_cleanup_witness :
    (main_run encFailWorld).uploadOutcomes = [] ∧
    (main_run encFailWorld).zipExistsAtEnd = encFailWorld.removeZipFails ∧
    (main_run encFailWorld).encExistsAtEnd = false :=
  c2_encrypt_failure_cleanup encFailWorld (by decide) (by decide)

/-- Claim C3, counterexample: for the directory item `"d/"` (trailing
separator) over a filesystem with the single file `d/f`, the code stores
the entry `f`, whereas storing relative to the *parent* of the directory —
as the claim states for every directory item — would store `d/f`. -/
theorem c3_counterexample :
    entriesForItem ⟨[["d", "f"]], [["d"]]⟩ "d/" = [["f"]] ∧
    (filesUnder ⟨[["d", "f"]], [["d"]]⟩ "d/").map
      (fun f => relpathComponents f (parentDirComponents "d/")) = [["d", "f"]] ∧
    [[("f" : String)]] ≠ [["d", "f"]] := by
  decide

/-- Claim C3, amended: the archive contains exactly the following entries
and no extras — each regular-file item under only its base name; for each
directory item written without a trailing separator, every file below it
under its path relative to the directory's parent (the directory's own
name is the top-level entry); for each directory item written with a
trailing separator, every file below it under its path relative to the
directory itself; items that are neither contribute nothing. -/
theorem c3_archive_entry_shape (fs : FS) (items : List String) :
    create_unencrypted_zip_entries fs items =
      items.flatMap (fun item =>
        if isfile fs item then [[basenameOf item]]
        else if isdir fs item then
          if endsWithSep item then
            (filesUnder fs item).map (fun f => f.drop (pathComponents item).length)
          else
            (filesUnder fs item).map (fun f => f.drop ((pathComponents item).length - 1))
        else []) := by
  unfold create_unencrypted_zip_entries
  induction items with
  | nil => rfl
  | cons it its ih =>
    rw [List.flatMap_cons, List.flatMap_cons, ih, entriesForItem_eq_cases fs it]

/-- Claim C4: whenever the pipeline reaches the upload stage, every
configured destination is attempted in order — each attempt's outcome is
recorded, failures included — and the final cleanup block is still
reached. -/
theorem c4_all_destinations_attempted (w : World)
    (hA : create_zip_ok w = true) (hE : encryptOk w = true) :
    (main_run w).uploadOutcomes = w.servers.map (fun sw => upload_to_webdav sw w.remoteDir) ∧
    (main_run w).cleanupReached = true := by
  rw [main_run_success w hA hE]
  exact ⟨rfl, rfl⟩

/-- Witness for claim C4: two destinations, the first failing with a
connection error and the second succeeding; both are attempted, the
recorded outcomes are the caught error followed by a successful upload, and
cleanup is reached. -/
theorem c4_all_destinations_attempted_witness :
    (main_run twoServerWorld).uploadOutcomes =
      twoServerWorld.servers.map (fun sw => upload_to_webdav sw twoServerWorld.remoteDir) ∧
    (main_run twoServerWorld).cleanupReached = true ∧
    (main_run twoServerWorld).uploadOutcomes = [.errorCaught, .uploaded] :=
  ⟨(c4_all_destinations_attempted twoServerWorld (by decide) (by decide)).1,
   (c4_all_destinations_attempted twoServerWorld (by decide) (by decide)).2,
   by decide⟩

/-- Claim C5, counterexample: a run reaches the cleanup block with both
temporary files present and the encrypted file perfectly removable, yet
because removing the zip raises `OSError`, the single `try` block is
abandoned and the encrypted file's deletion is never attempted — it is
still there at process end. -/
theorem c5_counterexample :
    (main_run zipRemoveFailWorld).cleanupReached = true ∧
    zipRemoveFailWorld.removeEncFails = false ∧
    (main_run zipRemoveFailWorld).encExistsAtEnd = true ∧
    (main_run zipRemoveFailWorld).exitCode = 0 := by
  decide

/-- Claim C5, amended: in every run that reaches the cleanup stage,
deletion errors are logged and never escalated (the process still exits 0),
and the zip is deleted unless its own removal errors; but the two deletions
share one guarded block, so the encrypted file is deleted exactly when
neither its removal nor the preceding zip removal errors — an error on the
zip skips the encrypted file's deletion rather than attempting it
independently. -/
theorem c5_cleanup_best_effort (w : World)
    (hA : create_zip_ok w = true) (hE : encryptOk w = true) :
    (main_run w).exitCode = 0 ∧
    (main_run w).cleanupErrorLogged = (w.removeZipFails || w.removeEncFails) ∧
    (main_run w).zipExistsAtEnd = w.removeZipFails ∧
    (main_run w).encExistsAtEnd = (w.removeZipFails || w.removeEncFails) := by
  rw [main_run_success w hA hE]
  cases hz : w.removeZipFails <;> cases he : w.removeEncFails <;>
    simp [cleanup_block, hz, he]

/-- Witness for the amended claim C5 at a concrete successful run. -/
theorem c5_cleanup_best_effort_witness :
    (main_run quietWorld).exitCode = 0 ∧
    (main_run quietWorld).cleanupErrorLogged =
      (quietWorld.removeZipFails || quietWorld.removeEncFails) ∧
    (main_run quietWorld).zipExistsAtEnd = quietWorld.removeZipFails ∧
    (main_run quietWorld).encExistsAtEnd =
      (quietWorld.removeZipFails || quietWorld.removeEncFails) :=
  c5_cleanup_best_effort quietWorld (by decide) (by decide)

/-- Claim C6: `encrypt_with_openssl` never lets an exception escape (both
failure modes are caught and turned into a `False` return), reports
`ToolUnavailable` exactly when the openssl binary cannot be invoked,
reports `CipherFailed` with the cipher's exit code and diagnostic output
exactly when the cipher runs but fails, and returns `True` exactly on
success. -/
theorem c6_encrypt_error_modes (o : CipherOutcome) :
    (∃ r, encrypt_with_openssl o = .ok r) ∧
    (encrypt_with_openssl o = .ok (false, some .toolUnavailable) ↔ o = .toolMissing) ∧
    (∀ code msg,
      encrypt_with_openssl o = .ok (false, some (.cipherFailed code msg)) ↔
        o = .cipherError code msg) ∧
    (encrypt_with_openssl o = .ok (true, none) ↔ o = .succeeded) := by
  cases o <;> simp [encrypt_with_openssl, subprocess_run_openssl]

/-- Witness for claim C6 at the two concrete failure outcomes. -/
theorem c6_encrypt_error_modes_witness :
    encrypt_with_openssl .toolMissing = .ok (false, some .toolUnavailable) ∧
    encrypt_with_openssl (.cipherError 1 "bad decrypt") =
      .ok (false, some (.cipherFailed 1 "bad decrypt")) :=
  ⟨(c6_encrypt_error_modes .toolMissing).2.1.mpr rfl,
   ((c6_encrypt_error_modes (.cipherError 1 "bad decrypt")).2.2.1 1 "bad decrypt").mpr rfl⟩

/-- Claim C7, counterexample: a run in which the zip container is opened
but filling it fails — `create_unencrypted_zip` returns `False`, yet the
partially-written (non-empty, since the container's central directory is
written on close) zip file still exists when the process ends: the
orchestrator removed nothing. -/
theorem c7_counterexample :
    create_zip_ok partialZipWorld = false ∧
    (main_run partialZipWorld).zipExistsAtEnd = true := by
  decide

/-- Claim C7, amended: after a failed archiving stage the pipeline aborts —
nothing is uploaded, no encrypted file is created, and the cleanup stage is
never entered — and the zip file remains on disk exactly when opening the
container had succeeded: a partially-written archive is *not* removed by
the orchestrator. -/
theorem c7_partial_archive_left_behind (w : World) (h : create_zip_ok w = false) :
    (main_run w).zipExistsAtEnd = w.openOk ∧
    (main_run w).uploadOutcomes = [] ∧
    (main_run w).encExistsAtEnd = false ∧
    (main_run w).cleanupReached = false := by
  rw [main_run_archfail w h]
  exact ⟨rfl, rfl, rfl, rfl⟩

/-- Witness for the amended claim C7 at a concrete failed-archive run. -/
theorem c7_partial_archive_left_behind_witness :
    (main_run partialZipWorld).zipExistsAtEnd = partialZipWorld.openOk ∧
    (main_run partialZipWorld).uploadOutcomes = [] ∧
    (main_run partialZipWorld).encExistsAtEnd = false ∧
    (main_run partialZipWorld).cleanupReached = false :=
  c7_partial_archive_left_behind partialZipWorld (by decide)

/-- Claim C8: a source item that is neither an existing regular file nor an
existing directory contributes nothing to the archive and raises no error —
`create_unencrypted_zip` returns exactly what it returns on the same list
with that item removed, success flag included. -/
theorem c8_skips_missing_items (fs : FS) (item : String) (pre post : List String)
    (h1 : isfile fs item = false) (h2 : isdir fs item = false) :
    create_unencrypted_zip fs (pre ++ item :: post) = create_unencrypted_zip fs (pre ++ post) := by
  unfold create_unencrypted_zip create_unencrypted_zip_entries
  rw [List.flatMap_append, List.flatMap_append, List.flatMap_cons]
  have hit : entriesForItem fs item = [] := by
    unfold entriesForItem
    rw [h1, h2]
    simp
  rw [hit, List.nil_append]

/-- Witness for claim C8: a missing path between two existing files is
skipped without changing the result. -/
theorem c8_skips_missing_items_witness :
    create_unencrypted_zip ⟨[["a"], ["b"]], []⟩ ["/a", "/lost", "/b"] =
      create_unencrypted_zip ⟨[["a"], ["b"]], []⟩ ["/a", "/b"] :=
  c8_skips_missing_items ⟨[["a"], ["b"]], []⟩ "/lost" ["/a"] ["/b"] (by decide) (by decide)

/-- Claim C9: the ensure-directory step is idempotent — after a successful
`ensureDirectory` call, calling it again on the same path leaves the state
unchanged and does not error — and when directory creation fails because
the directory already exists (created concurrently between the existence
check and `mkdir`), `upload_to_webdav` catches the error and returns
normally instead of letting it escape. -/
theorem c9_ensure_directory_idempotent :
    (∀ dirs p dirs2, ensureDirectory dirs p = .ok dirs2 →
      ensureDirectory dirs2 p = .ok dirs2) ∧
    (∀ (sw : ServerWorld) (p : String), sw.raceCreate = true → sw.checkFails = false →
      check_dir sw.dirs p = false → upload_to_webdav sw p = .errorCaught) := by
  constructor
  · intro dirs p dirs2 h
    unfold ensureDirectory client_mkdir at h ⊢
    by_cases hc : check_dir dirs p = true
    · rw [if_pos hc] at h
      obtain rfl : dirs = dirs2 := by injection h
      rw [if_pos hc]
    · rw [if_neg hc] at h
      by_cases hm : dirs.contains p = true
      · rw [if_pos hm] at h
        exact absurd h (by simp)
      · rw [if_neg hm] at h
        obtain rfl : p :: dirs = dirs2 := by injection h
        have hc2 : check_dir (p :: dirs) p = true := by
          simp [check_dir]
        rw [if_pos hc2]
  · intro sw p hr hcf hcd
    unfold upload_to_webdav client_mkdir
    rw [hcf, hcd, hr]
    simp [check_dir]

/-- Witness for claim C9: a second ensure on an already-created directory
succeeds unchanged, and a raced creation failure is caught. -/
theorem c9_ensure_directory_idempotent_witness :
    ensureDirectory ["2026-10"] "2026-10" = .ok ["2026-10"] ∧
    upload_to_webdav ⟨[], false, true, false⟩ "2026-10" = .errorCaught :=
  ⟨c9_ensure_directory_idempotent.1 [] "2026-10" ["2026-10"] (by rfl),
   c9_ensure_directory_idempotent.2 ⟨[], false, true, false⟩ "2026-10" rfl rfl (by rfl)⟩

/-- Claim C10: for a directory item written with a trailing separator,
`os.path.dirname` of the item is the item itself, so every contained file
is stored relative to the directory itself — its path with the directory's
components dropped — not relative to the directory's parent. -/
theorem c10_trailing_separator_flattens (fs : FS) (item : String)
    (hsep : endsWithSep item = true) (hd : isdir fs item = true) :
    entriesForItem fs item =
      (filesUnder fs item).map (fun f => f.drop (pathComponents item).length) ∧
    dirnameComponents item = pathComponents item := by
  have hf : isfile fs item = false := by
    unfold isfile
    rw [hsep]
    rfl
  constructor
  · rw [entriesForItem_dir fs item hf hd, dirnameComponents_of_sep item hsep]
  · exact dirnameComponents_of_sep item hsep

/-- Witness for claim C10: the directory item `"d/"` stores `d/sub/f` as
`sub/f`, so `d` itself is not the top-level entry. -/
theorem c10_trailing_separator_flattens_witness :
    (entriesForItem ⟨[["d", "sub", "f"]], [["d"]]⟩ "d/" =
      (filesUnder ⟨[["d", "sub", "f"]], [["d"]]⟩ "d/").map
        (fun f => f.drop (pathComponents "d/").length) ∧
     dirnameComponents "d/" = pathComponents "d/") ∧
    entriesForItem ⟨[["d", "sub", "f"]], [["d"]]⟩ "d/" = [["sub", "f"]] :=
  ⟨c10_trailing_separator_flattens ⟨[["d", "sub", "f"]], [["d"]]⟩ "d/" (by decide) (by decide),
   by decide⟩
